import Mathlib

/-!
Verification of the login-throttle component of the Diet-Planner backend
(`backend/security.py`, class `SecurityManager`): the methods
`rate_limit_login_attempts` (the spec's `checkAllowed`) and
`record_failed_login` (the spec's `recordFailedAttempt`).

The mutable object state is embedded as an explicit record of the two
in-memory maps; each Python method becomes a Lean function from state to
(result and) state.  Python dicts are embedded as `String → Option _`
functions; `time.time()` values are embedded as integers (the comparisons
in the source are order comparisons only, so the choice of an ordered
numeric carrier is immaterial to every property proved here).
-/

namespace DietPlanner

/-- State of a `SecurityManager` instance: the two in-memory maps
`self.failed_login_attempts : Dict[str, List[float]]` and
`self.blocked_ips : Dict[str, float]` created empty in `__init__`. -/
@[ext]
structure SecurityManager where
  failed_login_attempts : String → Option (List Int)
  blocked_ips : String → Option Int

/-- The state after `__init__`: both dicts empty. -/
def initSM : SecurityManager :=
  { failed_login_attempts := fun _ => none, blocked_ips := fun _ => none }

/-- Dict store `self.failed_login_attempts[email] = l`. -/
def updAttempts (s : SecurityManager) (email : String) (l : List Int) : SecurityManager :=
  { s with failed_login_attempts := fun k => if k = email then some l else s.failed_login_attempts k }

/-- Dict store `self.blocked_ips[ip] = e`. -/
def updBlocked (s : SecurityManager) (ip : String) (e : Int) : SecurityManager :=
  { s with blocked_ips := fun k => if k = ip then some e else s.blocked_ips k }

/-- The list comprehension `[t for t in attempts if t > cutoff_time]`
from `rate_limit_login_attempts`. -/
def pruneAttempts (cutoff_time : Int) (attempts : List Int) : List Int :=
  attempts.filter (fun t => decide (cutoff_time < t))

/-- The expression `ip in self.blocked_ips and self.blocked_ips[ip] > current_time`
from `rate_limit_login_attempts` (the spec's `isBlocked`). -/
def is_blocked (s : SecurityManager) (ip : String) (current_time : Int) : Bool :=
  match s.blocked_ips ip with
  | some expiry => decide (current_time < expiry)
  | none => false

/-- `SecurityManager.rate_limit_login_attempts(email, ip)` (the spec's
`checkAllowed`), with the wall-clock reading `time.time()` passed as the
explicit argument `current_time`.  Returns the boolean result together with
the updated state: when `email` is a key, its list is reassigned to the
pruned list before the length test, and the method returns `False` when the
pruned list has at least 5 entries or the ip is currently blocked. -/
def rate_limit_login_attempts (s : SecurityManager) (email ip : String)
    (current_time : Int) : Bool × SecurityManager :=
  let cutoff_time := current_time - 900
  match s.failed_login_attempts email with
  | some attempts =>
      let pruned := pruneAttempts cutoff_time attempts
      let s' := updAttempts s email pruned
      if 5 ≤ pruned.length then (false, s')
      else if is_blocked s' ip current_time then (false, s') else (true, s')
  | none =>
      if is_blocked s ip current_time then (false, s) else (true, s)

/-- `SecurityManager.record_failed_login(email, ip)` (the spec's
`recordFailedAttempt`): ensure the email's list exists, append
`current_time`, and if the resulting (unpruned) list has at least 10
entries set `self.blocked_ips[ip] = current_time + 900`. -/
def record_failed_login (s : SecurityManager) (email ip : String)
    (current_time : Int) : SecurityManager :=
  let attempts := (s.failed_login_attempts email).getD []
  let attempts' := attempts ++ [current_time]
  let s1 := updAttempts s email attempts'
  if 10 ≤ attempts'.length then updBlocked s1 ip (current_time + 900) else s1

/-- A Python dict subscript `m[k]`: raises `KeyError` when the key is
absent.  Used by the fallible re-embeddings below, which make every
subscript's failure case explicit. -/
def dictGet {α : Type} (m : String → Option α) (k : String) : Except String α :=
  match m k with
  | some v => Except.ok v
  | none => Except.error "KeyError"

/-- `rate_limit_login_attempts` re-embedded with every dict subscript
fallible (`dictGet`), mirroring the source's guard structure: the email
subscript runs only under `email in self.failed_login_attempts`, and the
blocklist subscript only under `ip in self.blocked_ips` (Python's
short-circuit `and`). -/
def rate_limit_login_attempts_checked (s : SecurityManager) (email ip : String)
    (current_time : Int) : Except String (Bool × SecurityManager) := do
  let cutoff_time := current_time - 900
  if (s.failed_login_attempts email).isSome then
    let attempts ← dictGet s.failed_login_attempts email
    let pruned := pruneAttempts cutoff_time attempts
    let s' := updAttempts s email pruned
    if 5 ≤ pruned.length then
      return (false, s')
    if (s'.blocked_ips ip).isSome then
      let expiry ← dictGet s'.blocked_ips ip
      if current_time < expiry then
        return (false, s')
    return (true, s')
  else
    if (s.blocked_ips ip).isSome then
      let expiry ← dictGet s.blocked_ips ip
      if current_time < expiry then
        return (false, s)
    return (true, s)

/-- `record_failed_login` re-embedded with every dict subscript fallible:
the source creates the key when absent, then subscripts it for the
`append` and again for the `len(...)` test. -/
def record_failed_login_checked (s : SecurityManager) (email ip : String)
    (current_time : Int) : Except String SecurityManager := do
  let s0 := if (s.failed_login_attempts email).isSome then s else updAttempts s email []
  let attempts ← dictGet s0.failed_login_attempts email
  let s1 := updAttempts s0 email (attempts ++ [current_time])
  let stored ← dictGet s1.failed_login_attempts email
  if 10 ≤ stored.length then
    return updBlocked s1 ip (current_time + 900)
  return s1

/-! ### Basic lemmas about the embedded operations -/

lemma updAttempts_apply (s : SecurityManager) (email k : String) (l : List Int) :
    (updAttempts s email l).failed_login_attempts k
      = if k = email then some l else s.failed_login_attempts k := rfl

lemma updAttempts_blocked (s : SecurityManager) (email : String) (l : List Int) :
    (updAttempts s email l).blocked_ips = s.blocked_ips := rfl

lemma updBlocked_apply (s : SecurityManager) (ip k : String) (e : Int) :
    (updBlocked s ip e).blocked_ips k = if k = ip then some e else s.blocked_ips k := rfl

lemma updBlocked_attempts (s : SecurityManager) (ip : String) (e : Int) :
    (updBlocked s ip e).failed_login_attempts = s.failed_login_attempts := rfl

lemma is_blocked_updAttempts (s : SecurityManager) (email : String) (l : List Int)
    (ip : String) (t : Int) :
    is_blocked (updAttempts s email l) ip t = is_blocked s ip t := rfl

lemma mem_pruneAttempts (c t : Int) (l : List Int) :
    t ∈ pruneAttempts c l ↔ t ∈ l ∧ c < t := by
  simp [pruneAttempts, List.mem_filter, and_comm]

lemma pruneAttempts_pruneAttempts (c c' : Int) (h : c ≤ c') (l : List Int) :
    pruneAttempts c' (pruneAttempts c l) = pruneAttempts c' l := by
  unfold pruneAttempts
  rw [List.filter_filter]
  congr 1
  funext t
  by_cases h' : c' < t
  · simp [h', lt_of_le_of_lt h h']
  · simp [h']

/-- The boolean returned by `rate_limit_login_attempts`: `false` exactly when
the pruned attempt list (an absent key counting as the empty list) has at
least 5 entries or the ip is currently blocked. -/
lemma rate_limit_fst (s : SecurityManager) (email ip : String) (T : Int) :
    (rate_limit_login_attempts s email ip T).1
      = (!decide (5 ≤ (pruneAttempts (T - 900)
            ((s.failed_login_attempts email).getD [])).length)
         && !is_blocked s ip T) := by
  unfold rate_limit_login_attempts
  cases h : s.failed_login_attempts email with
  | none =>
      simp [h, pruneAttempts]
      split_ifs with hb <;> simp_all
  | some attempts =>
      simp only [h, Option.getD_some, is_blocked_updAttempts]
      split_ifs with h5 hb <;> simp_all

/-- The state left by `rate_limit_login_attempts`: the email's list is
reassigned to its pruned version when the key is present (on every control
path, including the denying ones); otherwise the state is untouched. -/
lemma rate_limit_snd (s : SecurityManager) (email ip : String) (T : Int) :
    (rate_limit_login_attempts s email ip T).2
      = match s.failed_login_attempts email with
        | some attempts => updAttempts s email (pruneAttempts (T - 900) attempts)
        | none => s := by
  unfold rate_limit_login_attempts
  cases h : s.failed_login_attempts email with
  | none => simp [h]; split_ifs <;> rfl
  | some attempts => simp only [h]; split_ifs <;> rfl

/-- The blocklist left by `record_failed_login`: overwritten at `ip` with
`current_time + 900` exactly when the stored list reaches length 10 after
the append; untouched otherwise. -/
lemma record_blocked_eq (s : SecurityManager) (email ip : String) (T : Int) (k : String) :
    (record_failed_login s email ip T).blocked_ips k
      = if 10 ≤ ((s.failed_login_attempts email).getD []).length + 1 then
          (if k = ip then some (T + 900) else s.blocked_ips k)
        else s.blocked_ips k := by
  simp only [record_failed_login, List.length_append, List.length_singleton]
  split_ifs with h10 hk <;> simp_all [updBlocked, updAttempts]

/-- The attempts map left by `record_failed_login`: `current_time` appended
to the email's list (created if absent); other keys untouched. -/
lemma record_attempts_eq (s : SecurityManager) (email ip : String) (T : Int) (k : String) :
    (record_failed_login s email ip T).failed_login_attempts k
      = if k = email then some (((s.failed_login_attempts email).getD []) ++ [T])
        else s.failed_login_attempts k := by
  simp only [record_failed_login]
  split_ifs with h10 hk <;> simp_all [updBlocked, updAttempts]

lemma rate_limit_snd_none {s : SecurityManager} {email : String} (ip : String) (T : Int)
    (hm : s.failed_login_attempts email = none) :
    (rate_limit_login_attempts s email ip T).2 = s := by
  rw [rate_limit_snd, hm]

lemma rate_limit_snd_some {s : SecurityManager} {email : String} {l : List Int}
    (ip : String) (T : Int) (hm : s.failed_login_attempts email = some l) :
    (rate_limit_login_attempts s email ip T).2
      = updAttempts s email (pruneAttempts (T - 900) l) := by
  rw [rate_limit_snd, hm]

lemma updAttempts_updAttempts (s : SecurityManager) (email : String) (l l' : List Int) :
    updAttempts (updAttempts s email l) email l' = updAttempts s email l' := by
  ext k
  · simp only [updAttempts_apply]
    split_ifs <;> rfl
  · rfl

/-- Pruning at a later (or equal) time after a check never revives and never
newly discards relative to a direct later check: the boolean of a check at
`T'` is unchanged by an earlier check at `T ≤ T'`. -/
lemma rate_limit_fst_of_snd (s : SecurityManager) (email ip : String) (T T' : Int)
    (h : T ≤ T') :
    (rate_limit_login_attempts (rate_limit_login_attempts s email ip T).2 email ip T').1
      = (rate_limit_login_attempts s email ip T').1 := by
  cases hm : s.failed_login_attempts email with
  | none => rw [rate_limit_snd_none ip T hm]
  | some l =>
      have hm' : (updAttempts s email (pruneAttempts (T - 900) l)).failed_login_attempts email
          = some (pruneAttempts (T - 900) l) := by rw [updAttempts_apply, if_pos rfl]
      rw [rate_limit_snd_some ip T hm, rate_limit_fst, rate_limit_fst, hm, hm',
        is_blocked_updAttempts]
      simp only [Option.getD_some,
        pruneAttempts_pruneAttempts (T - 900) (T' - 900) (by omega) l]

/-- A second check at the same time leaves the state exactly as the first
check left it. -/
lemma rate_limit_snd_idem (s : SecurityManager) (email ip : String) (T : Int) :
    (rate_limit_login_attempts (rate_limit_login_attempts s email ip T).2 email ip T).2
      = (rate_limit_login_attempts s email ip T).2 := by
  cases hm : s.failed_login_attempts email with
  | none =>
      rw [rate_limit_snd_none ip T hm]
      exact rate_limit_snd_none ip T hm
  | some l =>
      have hm' : (updAttempts s email (pruneAttempts (T - 900) l)).failed_login_attempts email
          = some (pruneAttempts (T - 900) l) := by rw [updAttempts_apply, if_pos rfl]
      rw [rate_limit_snd_some ip T hm, rate_limit_snd_some ip T hm',
        pruneAttempts_pruneAttempts (T - 900) (T - 900) le_rfl l, updAttempts_updAttempts]

/-! ### Concrete states used by witnesses and by the C1 counterexample -/

/-- Scenario B state: five failures recorded for `"a@x.com"` at t = 0..4. -/
def scB : SecurityManager := updAttempts initSM "a@x.com" [0, 1, 2, 3, 4]

/-- Scenario C state: nine failures recorded for `"a@x.com"` at t = 0..8
(the tenth is recorded by the witness itself). -/
def scC : SecurityManager := updAttempts initSM "a@x.com" [0, 1, 2, 3, 4, 5, 6, 7, 8]

/-- A single stale failure at t = 0 for `"a@x.com"`. -/
def staleState : SecurityManager := updAttempts initSM "a@x.com" [0]

/-- Two failures, at t = 0 and t = 1, for `"a@x.com"`. -/
def boundaryState : SecurityManager := updAttempts initSM "a@x.com" [0, 1]

/-- Nine failures recorded via `record_failed_login` at t = 0..8 for
`"victim@x.com"` from address `"1.2.3.4"`. -/
def cexBase : SecurityManager :=
  [0, 1, 2, 3, 4, 5, 6, 7, 8].foldl
    (fun s t => record_failed_login s "victim@x.com" "1.2.3.4" t) initSM

/-- `cexBase` followed by a tenth `record_failed_login` much later, at
t = 10000, long after the nine earlier failures left the 900-second window. -/
def cexState : SecurityManager := record_failed_login cexBase "victim@x.com" "1.2.3.4" 10000

/-- Ten stored failures for `"a@x.com"` and an existing block on
`"1.2.3.4"` expiring at t = 909. -/
def reblockState : SecurityManager :=
  updBlocked (updAttempts initSM "a@x.com" [0, 1, 2, 3, 4, 5, 6, 7, 8, 9]) "1.2.3.4" 909

/-! ### Claims -/

/-- C2: `rate_limit_login_attempts` (the spec's `checkAllowed`) returns
`false` if and only if the email's failure list pruned to the trailing 900
seconds (an absent key counting as empty) has at least 5 entries, or the ip
has a block entry whose expiry is strictly greater than the current time;
otherwise it returns `true`.  In particular an identifier whose failures
have all aged out of the window is allowed again. -/
theorem checkAllowed_false_iff (s : SecurityManager) (email ip : String) (T : Int) :
    (rate_limit_login_attempts s email ip T).1 = false ↔
      5 ≤ (pruneAttempts (T - 900) ((s.failed_login_attempts email).getD [])).length
      ∨ is_blocked s ip T = true := by
  rw [rate_limit_fst]
  by_cases h5 : 5 ≤ (pruneAttempts (T - 900) ((s.failed_login_attempts email).getD [])).length <;>
    cases hb : is_blocked s ip T <;> simp [h5, hb]

/-- C4: once the email's list holds at least 5 failures inside the trailing
900-second window at check time, `rate_limit_login_attempts` returns
`false` for that email. -/
theorem fifthFailureDenies (s : SecurityManager) (email ip : String) (T : Int)
    (h : 5 ≤ (pruneAttempts (T - 900) ((s.failed_login_attempts email).getD [])).length) :
    (rate_limit_login_attempts s email ip T).1 = false := by
  rw [rate_limit_fst]
  simp [h]

/-- Witness for C4, scenario B of the spec: failures at t = 0..4, check at
t = 5 is denied. -/
theorem fifthFailureDenies_witness :
    5 ≤ (pruneAttempts (5 - 900) ((scB.failed_login_attempts "a@x.com").getD [])).length
    ∧ (rate_limit_login_attempts scB "a@x.com" "1.2.3.4" 5).1 = false :=
  ⟨by decide, fifthFailureDenies scB "a@x.com" "1.2.3.4" 5 (by decide)⟩

/-- C10: the pruning boundary is exclusive at exactly the 900-second window:
a check at time `T` stores back exactly the timestamps `t` with
`t > T - 900`, so a failure recorded exactly 900 seconds before the check is
discarded and no longer counts. -/
theorem pruneBoundaryExclusive (s : SecurityManager) (email ip : String) (T t : Int)
    (l : List Int) (h : s.failed_login_attempts email = some l) :
    (rate_limit_login_attempts s email ip T).2.failed_login_attempts email
        = some (pruneAttempts (T - 900) l)
    ∧ (t ∈ pruneAttempts (T - 900) l ↔ t ∈ l ∧ T - 900 < t) := by
  refine ⟨?_, mem_pruneAttempts _ _ _⟩
  rw [rate_limit_snd_some ip T h, updAttempts_apply, if_pos rfl]

/-- Witness for C10: failures at t = 0 and t = 1, check at T = 900.  The
entry at t = 0 sits exactly 900 seconds back and is discarded. -/
theorem pruneBoundaryExclusive_witness :
    boundaryState.failed_login_attempts "a@x.com" = some [0, 1]
    ∧ ((rate_limit_login_attempts boundaryState "a@x.com" "1.2.3.4" 900).2.failed_login_attempts
          "a@x.com" = some (pruneAttempts (900 - 900) [0, 1])
       ∧ ((0 : Int) ∈ pruneAttempts (900 - 900) [0, 1] ↔ (0 : Int) ∈ [0, 1] ∧ (900 : Int) - 900 < 0)) :=
  ⟨by decide, pruneBoundaryExclusive boundaryState "a@x.com" "1.2.3.4" 900 0 [0, 1] (by decide)⟩

/-- C6: a key present in the attempts ledger before a check is still
present afterwards: the check replaces the list by its pruned version
(possibly empty) but never deletes the key. -/
theorem checkAllowed_preservesKeys (s : SecurityManager) (email ip : String) (T : Int)
    (k : String) (h : (s.failed_login_attempts k).isSome = true) :
    ((rate_limit_login_attempts s email ip T).2.failed_login_attempts k).isSome = true := by
  cases hm : s.failed_login_attempts email with
  | none => rw [rate_limit_snd_none ip T hm]; exact h
  | some l =>
      rw [rate_limit_snd_some ip T hm, updAttempts_apply]
      split_ifs with hk
      · rfl
      · exact h

/-- Witness for C6: the single failure at t = 0 prunes to the empty list at
T = 10000, yet the key survives the check. -/
theorem checkAllowed_preservesKeys_witness :
    (staleState.failed_login_attempts "a@x.com").isSome = true
    ∧ (((rate_limit_login_attempts staleState "a@x.com" "1.2.3.4" 10000).2.failed_login_attempts
          "a@x.com").isSome = true) :=
  ⟨by decide,
    checkAllowed_preservesKeys staleState "a@x.com" "1.2.3.4" 10000 "a@x.com" (by decide)⟩

/-- C7: side effects are confined to the keys passed in:
`record_failed_login` for `(email, ip)` changes at most the list under
`email` and the expiry under `ip`; `rate_limit_login_attempts` changes at
most the list under `email` and leaves the whole blocklist untouched. -/
theorem sideEffectsConfined (s : SecurityManager) (email ip : String) (T : Int)
    (k a : String) (hk : k ≠ email) (ha : a ≠ ip) :
    (record_failed_login s email ip T).failed_login_attempts k = s.failed_login_attempts k
    ∧ (record_failed_login s email ip T).blocked_ips a = s.blocked_ips a
    ∧ (rate_limit_login_attempts s email ip T).2.failed_login_attempts k
        = s.failed_login_attempts k
    ∧ (rate_limit_login_attempts s email ip T).2.blocked_ips = s.blocked_ips := by
  refine ⟨?_, ?_, ?_, ?_⟩
  · rw [record_attempts_eq, if_neg hk]
  · rw [record_blocked_eq]
    simp [ha]
  · cases hm : s.failed_login_attempts email with
    | none => rw [rate_limit_snd_none ip T hm]
    | some l => rw [rate_limit_snd_some ip T hm, updAttempts_apply, if_neg hk]
  · cases hm : s.failed_login_attempts email with
    | none => rw [rate_limit_snd_none ip T hm]
    | some l => rw [rate_limit_snd_some ip T hm]; rfl

/-- Witness for C7 at distinct concrete keys. -/
theorem sideEffectsConfined_witness :
    "b@x.com" ≠ "a@x.com" ∧ "5.6.7.8" ≠ "1.2.3.4"
    ∧ ((record_failed_login scB "a@x.com" "1.2.3.4" 7).failed_login_attempts "b@x.com"
          = scB.failed_login_attempts "b@x.com"
       ∧ (record_failed_login scB "a@x.com" "1.2.3.4" 7).blocked_ips "5.6.7.8"
          = scB.blocked_ips "5.6.7.8"
       ∧ (rate_limit_login_attempts scB "a@x.com" "1.2.3.4" 7).2.failed_login_attempts "b@x.com"
          = scB.failed_login_attempts "b@x.com"
       ∧ (rate_limit_login_attempts scB "a@x.com" "1.2.3.4" 7).2.blocked_ips = scB.blocked_ips) :=
  ⟨by decide, by decide,
    sideEffectsConfined scB "a@x.com" "1.2.3.4" 7 "b@x.com" "5.6.7.8" (by decide) (by decide)⟩

/-- C1 counterexample: `record_failed_login` does not prune.  Nine failures
at t = 0..8 followed by a tenth at t = 10000 leave only one failure inside
the trailing 900-second window at the time of that call — far below the
threshold of 10 — and before the call the address was not blocked, yet the
call blocks the address.  So blocking is not equivalent to the pruned
in-window count reaching 10. -/
theorem blockIgnoresPruning_cex :
    (pruneAttempts (10000 - 900) ((cexState.failed_login_attempts "victim@x.com").getD [])).length
        = 1
    ∧ cexBase.blocked_ips "1.2.3.4" = none
    ∧ is_blocked cexState "1.2.3.4" 10000 = true :=
  ⟨by decide, by decide, by decide⟩

/-- C1 amended: a `record_failed_login` call blocks the address for 900
seconds from the call exactly when the email's stored, unpruned list
reaches length 10 after the append; timestamps are never pruned by this
method, so failures older than the window still count unless a prior
`rate_limit_login_attempts` call removed them. -/
theorem recordBlocksOnStoredCount (s : SecurityManager) (email ip : String) (T : Int) :
    if 10 ≤ ((s.failed_login_attempts email).getD []).length + 1 then
      (record_failed_login s email ip T).blocked_ips ip = some (T + 900)
    else
      (record_failed_login s email ip T).blocked_ips ip = s.blocked_ips ip := by
  have hb := record_blocked_eq s email ip T ip
  split_ifs with h10
  · rw [hb, if_pos h10, if_pos rfl]
  · rw [hb, if_neg h10]

/-- C3: a block placed at time `T` (by a `record_failed_login` call whose
appended list reaches the threshold) stores expiry `T + 900`, and the
blocked-ip check of `rate_limit_login_attempts` reports the address blocked
at a time `t` exactly when `t < T + 900`: true strictly before `T + 900`,
false from `T + 900` on. -/
theorem blockLastsExactly900 (s : SecurityManager) (email ip : String) (T t : Int)
    (h : 10 ≤ ((s.failed_login_attempts email).getD []).length + 1) :
    is_blocked (record_failed_login s email ip T) ip t = decide (t < T + 900) := by
  have hb := record_blocked_eq s email ip T ip
  rw [if_pos h, if_pos rfl] at hb
  rw [is_blocked, hb]

/-- Witness for C3, scenario C of the spec: the tenth failure at t = 9
blocks `"1.2.3.4"`; the check reports blocked at t = 9 and unblocked at
t = 910. -/
theorem blockLastsExactly900_witness :
    10 ≤ ((scC.failed_login_attempts "a@x.com").getD []).length + 1
    ∧ is_blocked (record_failed_login scC "a@x.com" "1.2.3.4" 9) "1.2.3.4" 9
        = decide ((9 : Int) < 9 + 900)
    ∧ is_blocked (record_failed_login scC "a@x.com" "1.2.3.4" 9) "1.2.3.4" 910
        = decide ((910 : Int) < 9 + 900) :=
  ⟨by decide, blockLastsExactly900 scC "a@x.com" "1.2.3.4" 9 9 (by decide),
    blockLastsExactly900 scC "a@x.com" "1.2.3.4" 9 910 (by decide)⟩

/-- C9: every `record_failed_login` call whose appended (unpruned) stored
list has length at least 10 overwrites the address's block expiry to the
current time plus 900 — so each failure beyond the 10th re-blocks the
address and extends the block to 900 seconds after the most recent
failure. -/
theorem recordReblocksBeyondTen (s : SecurityManager) (email ip : String) (T : Int)
    (h : 10 ≤ ((s.failed_login_attempts email).getD []).length + 1) :
    (record_failed_login s email ip T).blocked_ips ip = some (T + 900) := by
  rw [record_blocked_eq, if_pos h, if_pos rfl]

/-- Witness for C9: with ten failures already stored and an existing block
expiring at t = 909, an eleventh failure at t = 20 overwrites the expiry to
t = 920. -/
theorem recordReblocksBeyondTen_witness :
    10 ≤ ((reblockState.failed_login_attempts "a@x.com").getD []).length + 1
    ∧ (record_failed_login reblockState "a@x.com" "1.2.3.4" 20).blocked_ips "1.2.3.4"
        = some (20 + 900) :=
  ⟨by decide, recordReblocksBeyondTen reblockState "a@x.com" "1.2.3.4" 20 (by decide)⟩

/-- C5: pruning is idempotent.  Two `rate_limit_login_attempts` calls at
the same time with no intervening record return the same boolean, the
second call leaves the state exactly as the first left it, and a repeated
check never changes the boolean a later check would return — so it cannot
extend the time at which the identifier becomes allowed again. -/
theorem checkAllowed_idempotent (s : SecurityManager) (email ip : String) (T T' : Int)
    (h : T ≤ T') :
    (rate_limit_login_attempts (rate_limit_login_attempts s email ip T).2 email ip T).1
        = (rate_limit_login_attempts s email ip T).1
    ∧ (rate_limit_login_attempts (rate_limit_login_attempts s email ip T).2 email ip T).2
        = (rate_limit_login_attempts s email ip T).2
    ∧ (rate_limit_login_attempts (rate_limit_login_attempts s email ip T).2 email ip T').1
        = (rate_limit_login_attempts s email ip T').1 :=
  ⟨rate_limit_fst_of_snd s email ip T T le_rfl, rate_limit_snd_idem s email ip T,
    rate_limit_fst_of_snd s email ip T T' h⟩

/-- Witness for C5: five failures at t = 0..4, repeated checks at T = 5 and
a later check at T' = 12. -/
theorem checkAllowed_idempotent_witness :
    (5 : Int) ≤ 12
    ∧ ((rate_limit_login_attempts (rate_limit_login_attempts scB "a@x.com" "1.2.3.4" 5).2
          "a@x.com" "1.2.3.4" 5).1
        = (rate_limit_login_attempts scB "a@x.com" "1.2.3.4" 5).1
       ∧ (rate_limit_login_attempts (rate_limit_login_attempts scB "a@x.com" "1.2.3.4" 5).2
          "a@x.com" "1.2.3.4" 5).2
        = (rate_limit_login_attempts scB "a@x.com" "1.2.3.4" 5).2
       ∧ (rate_limit_login_attempts (rate_limit_login_attempts scB "a@x.com" "1.2.3.4" 5).2
          "a@x.com" "1.2.3.4" 12).1
        = (rate_limit_login_attempts scB "a@x.com" "1.2.3.4" 12).1) :=
  ⟨by decide, checkAllowed_idempotent scB "a@x.com" "1.2.3.4" 5 12 (by decide)⟩

lemma except_bind_ok {α β : Type} (x : α) (f : α → Except String β) :
    (Except.ok x : Except String α) >>= f = f x := rfl

lemma except_pure_eq {α : Type} (x : α) : (pure x : Except String α) = Except.ok x := rfl

lemma rate_limit_checked_ok (s : SecurityManager) (email ip : String) (T : Int) :
    rate_limit_login_attempts_checked s email ip T
      = Except.ok (rate_limit_login_attempts s email ip T) := by
  unfold rate_limit_login_attempts_checked rate_limit_login_attempts dictGet is_blocked
  cases hm : s.failed_login_attempts email with
  | none =>
      cases hb : s.blocked_ips ip with
      | none => simp [hm, hb, except_bind_ok, except_pure_eq]
      | some expiry =>
          by_cases ht : T < expiry <;> simp [hm, hb, ht, except_bind_ok, except_pure_eq]
  | some attempts =>
      by_cases h5 : 5 ≤ (pruneAttempts (T - 900) attempts).length
      · simp [hm, h5, except_bind_ok, except_pure_eq]
      · cases hb : s.blocked_ips ip with
        | none => simp [hm, h5, hb, updAttempts, except_bind_ok, except_pure_eq]
        | some expiry =>
            by_cases ht : T < expiry <;>
              simp [hm, h5, hb, ht, updAttempts, except_bind_ok, except_pure_eq]

lemma record_checked_ok (s : SecurityManager) (email ip : String) (T : Int) :
    record_failed_login_checked s email ip T
      = Except.ok (record_failed_login s email ip T) := by
  unfold record_failed_login_checked record_failed_login dictGet
  cases hm : s.failed_login_attempts email with
  | none =>
      simp [hm, updAttempts_updAttempts, updAttempts_apply, except_bind_ok, except_pure_eq]
  | some l =>
      by_cases h10 : 10 ≤ l.length + 1 <;>
        simp [hm, h10, updAttempts_apply, except_bind_ok, except_pure_eq, List.length_append]
      all_goals
        intro hcon
        exfalso
        omega

/-- C8: neither operation can fail.  Re-embedding both methods with every
dict subscript made fallible (raising `KeyError` on a missing key) yields
programs that return `Except.ok` of the total embeddings on every state,
email, ip, and time: every subscript is reached only under its membership
guard, and the check signals only a boolean. -/
theorem throttleNeverRaises (s : SecurityManager) (email ip : String) (T : Int) :
    rate_limit_login_attempts_checked s email ip T
        = Except.ok (rate_limit_login_attempts s email ip T)
    ∧ record_failed_login_checked s email ip T
        = Except.ok (record_failed_login s email ip T) :=
  ⟨rate_limit_checked_ok s email ip T, record_checked_ok s email ip T⟩

end DietPlanner
